import Mathlib

/-!
Shallow embedding of the mxpsu crate (MX Series power-supply driver).

Sources embedded:
  * src/error.rs      — the MxError enum (thiserror display strings kept).
  * src/lib.rs        — the protocol engine: `_check_event_status_register`,
    `_write_and_check`, `_query_and_check`, the static EXECUTION_ERROR_CODES
    table, and the operation surface (clear, reset, save/recall, multi-channel
    on/off sequencing, ...).
  * src/connection.rs — byte-level models of `SocketConnection` and
    `SerialConnection` `write_command`/`read_response`.

The effectful engine is modelled by explicit state passing: a `Trace` records
every transport interaction (command write, response read, settle sleep) in
order, and an `Env` plays the role of the instrument, supplying the result of
the n-th write and the n-th read.  Machine integers (`u8`, `i32`) are `Nat`
and `Int` with the source's range checks made explicit in the parse functions.
Strings use ASCII throughout (the instrument protocol is ASCII); `rustTrim`
models `str::trim` on ASCII whitespace.
-/

namespace Mxpsu

/-- Model of `MxError` from src/error.rs.  Each constructor keeps the fields of
the Rust variant; `IoError` stands for `MxError::Io` with the wrapped
`std::io::Error` reduced to its display message, and the `serialport::Error`
variant is omitted (never produced by the embedded code paths). -/
inductive MxError where
  | IoError (msg : String)
  | Parse (msg : String)
  | CommandError (msg : String)
  | ExecutionError (code : Int) (error_type : String) (description : String)
  | VerifyTimeoutError (msg : String)
  | QueryError (msg : String)
  | UndefinedDeviceErrorCode (code : Int) (command : String)
  | NotConnected
  | InvalidParameter (msg : String)
  | UnsupportedFeature (msg : String)
deriving DecidableEq, Repr

/-- Display string of an `MxError`, following the `#[error("...")]` attributes
in src/error.rs (used by `format!("... {}", e)` in lib.rs). -/
def MxError.display : MxError → String
  | .IoError msg => "IO error: " ++ msg
  | .Parse msg => "Parse error: " ++ msg
  | .CommandError msg => "Device reported command error: " ++ msg
  | .ExecutionError code t d =>
      "Device reported execution error (Code " ++ toString code ++ "): " ++ t ++ " - " ++ d
  | .VerifyTimeoutError msg => "Device reported verify timeout error: " ++ msg
  | .QueryError msg => "Device reported query error: " ++ msg
  | .UndefinedDeviceErrorCode code cmd =>
      "Undefined error code " ++ toString code ++ " from device. Command was: " ++ cmd
  | .NotConnected => "Connection not established or invalid"
  | .InvalidParameter msg => "Invalid parameter: " ++ msg
  | .UnsupportedFeature msg => "Feature not supported for current connection or not implemented: " ++ msg

/-- One observable transport interaction of the engine. -/
inductive Eff where
  | write (cmd : String)
  | sleep (ms : Nat)
  | read
deriving DecidableEq, Repr

/-- The ordered record of transport interactions performed so far. -/
abbrev Trace := List Eff

/-- Number of command writes recorded in a trace. -/
def writeCount (tr : Trace) : Nat :=
  tr.countP fun e => match e with | .write _ => true | _ => false

/-- Number of response reads recorded in a trace. -/
def readCount (tr : Trace) : Nat :=
  tr.countP fun e => match e with | .read => true | _ => false

/-- The instrument/transport environment: result of the n-th
`write_command` and of the n-th `read_response`. -/
structure Env where
  writeRes : Nat → Except MxError Unit
  readRes : Nat → Except MxError String

/-- Model of `Connection::write_command` at the engine level: the write is
recorded in the trace and the environment decides its result. -/
def write_command (env : Env) (tr : Trace) (command : String) :
    Except MxError Unit × Trace :=
  (env.writeRes (writeCount tr), tr ++ [Eff.write command])

/-- Model of `Connection::read_response` at the engine level. -/
def read_response (env : Env) (tr : Trace) : Except MxError String × Trace :=
  (env.readRes (readCount tr), tr ++ [Eff.read])

/-- Model of the `Connection::query` default method:
`self.write_command(command)?; self.read_response()`. -/
def query (env : Env) (tr : Trace) (command : String) :
    Except MxError String × Trace :=
  match write_command env tr command with
  | (.ok _, tr1) => read_response env tr1
  | (.error e, tr1) => (.error e, tr1)

/-- Model of `thread::sleep(Duration::from_millis(ms))`: recorded in the
trace. -/
def sleep_ms (tr : Trace) (ms : Nat) : Trace := tr ++ [Eff.sleep ms]

/-- ASCII whitespace test (`char::is_whitespace` restricted to the ASCII
characters that occur in this protocol). -/
def isWS (c : Char) : Bool := c = ' ' || c = '\t' || c = '\n' || c = '\r'

/-- Trim on a character list: drop whitespace from both ends. -/
def trimList (cs : List Char) : List Char :=
  ((cs.dropWhile isWS).reverse.dropWhile isWS).reverse

/-- Model of `str::trim`. -/
def rustTrim (s : String) : String := String.mk (trimList s.data)

/-- Accumulate a decimal value over a digit list; `none` on a non-digit. -/
def digitsValAux : List Char → Nat → Option Nat
  | [], acc => some acc
  | c :: rest, acc =>
      if c.isDigit then digitsValAux rest (acc * 10 + (c.toNat - 48)) else none

/-- Decimal value of a non-empty all-digit character list. -/
def digitsVal? : List Char → Option Nat
  | [] => none
  | cs => digitsValAux cs 0

/-- Model of `str::parse::<u8>()`: optional leading `+`, then decimal digits,
value at most 255. -/
def parseU8? (s : String) : Option Nat :=
  let cs :=
    match s.data with
    | '+' :: rest => rest
    | cs => cs
  match digitsVal? cs with
  | some n => if n ≤ 255 then some n else none
  | none => none

/-- Model of `str::parse::<i32>()`: optional sign, then decimal digits, value
within the i32 range. -/
def parseI32? (s : String) : Option Int :=
  match s.data with
  | '-' :: rest =>
      match digitsVal? rest with
      | some n => if n ≤ 2147483648 then some (-(n : Int)) else none
      | none => none
  | '+' :: rest =>
      match digitsVal? rest with
      | some n => if n ≤ 2147483647 then some ((n : Int)) else none
      | none => none
  | cs =>
      match digitsVal? cs with
      | some n => if n ≤ 2147483647 then some ((n : Int)) else none
      | none => none

/-- The static `EXECUTION_ERROR_CODES` phf map from src/lib.rs, as a pure
lookup function code ↦ (error_type, description). -/
def EXECUTION_ERROR_CODES : Int → Option (String × String) := fun code =>
  if code = 0 then
    some ("OK", "No error has occurred since this register was last read.")
  else if code = 100 then
    some ("NumericError", "The parameter value sent was outside the permitted range for the command in the present circumstances.")
  else if code = 102 then
    some ("RecallError", "A recall of set up data has been requested but the store specified does not contain any data.")
  else if code = 103 then
    some ("CommandInvalid", "The command is recognised but is not valid in the current circumstances. Typical examples would be trying to change V2 directly while the outputs are in voltage tracking mode with V1 as the master.")
  else if code = 104 then
    some ("RangeChangeError", "An operation requiring a range change was requested but could not be completed. Typically this occurs because >0.5V was still present on output 1 and/or output 2 terminals at the time the command was executed.")
  else if code = 200 then
    some ("AccessDenied", "An attempt was made to change the instrument\x27s settings from an interface which is locked out of write privileges by a lock held by another interface.")
  else none

/-- Model of `MxSeries::_check_event_status_register` (src/lib.rs lines
95-149): query `*ESR?`, parse the status byte, inspect bits 5, 4, 3, 2 in
that order; on bit 4 query `EER?` and resolve the code through
`EXECUTION_ERROR_CODES`. -/
def check_event_status_register (env : Env) (tr : Trace) (command_sent : String) :
    Except MxError Unit × Trace :=
  match query env tr "*ESR?" with
  | (.error e, tr1) =>
      (.error (.IoError ("Failed to query *ESR?: " ++ e.display ++
        " (Original command: " ++ command_sent ++ ")")), tr1)
  | (.ok esr_reply, tr1) =>
    match parseU8? (rustTrim esr_reply) with
    | none =>
        (.error (.Parse ("Could not parse ESR value: \x27" ++ esr_reply ++
          "\x27. Original command: " ++ command_sent)), tr1)
    | some status_val =>
      if status_val &&& 0b00100000 ≠ 0 then -- Bit 5 - Command Error
        (.error (.CommandError ("Syntax error in command or parameter. Command: \x27" ++
          command_sent ++ "\x27")), tr1)
      else if status_val &&& 0b00010000 ≠ 0 then -- Bit 4 - Execution Error
        match query env tr1 "EER?" with
        | (.error e, tr2) => (.error e, tr2)
        | (.ok eer_reply, tr2) =>
          let eer_str := rustTrim eer_reply
          match parseI32? eer_str with
          | none => (.error (.Parse ("Failed to parse EER value: " ++ eer_str)), tr2)
          | some error_code =>
            match EXECUTION_ERROR_CODES error_code with
            | some (err_type, err_msg) =>
                (.error (.ExecutionError error_code err_type err_msg), tr2)
            | none =>
                (.error (.UndefinedDeviceErrorCode error_code command_sent), tr2)
      else if status_val &&& 0b00001000 ≠ 0 then -- Bit 3 - Device Dependent Error
        (.error (.VerifyTimeoutError ("Verify timeout or device dependent error. Command: \x27" ++
          command_sent ++ "\x27")), tr1)
      else if status_val &&& 0b00000100 ≠ 0 then -- Bit 2 - Query Error
        (.error (.QueryError ("Query error (e.g., attempt to read without sending command). Command: \x27" ++
          command_sent ++ "\x27")), tr1)
      else
        (.ok (), tr1)

/-- Model of `MxSeries::_write_and_check`: write the command, settle 50 ms,
then interrogate the status register. -/
def write_and_check (env : Env) (tr : Trace) (command : String) :
    Except MxError Unit × Trace :=
  match write_command env tr command with
  | (.error e, tr1) => (.error e, tr1)
  | (.ok _, tr1) => check_event_status_register env (sleep_ms tr1 50) command

/-- Model of `MxSeries::_query_and_check`: on channel-level success return the
trimmed response with no status check; on failure run the status-register
interrogation and let a device-reported error replace the communication
error. -/
def query_and_check (env : Env) (tr : Trace) (command : String) :
    Except MxError String × Trace :=
  match query env tr command with
  | (.ok response, tr1) => (.ok (rustTrim response), tr1)
  | (.error e, tr1) =>
    match check_event_status_register env tr1 command with
    | (.ok _, tr2) => (.error e, tr2)
    | (.error esr_err, tr2) => (.error esr_err, tr2)

/-- Model of `MxSeries::clear` (src/lib.rs 183-186): send `*CLS` with no
status-register check afterwards. -/
def clear (env : Env) (tr : Trace) : Except MxError Unit × Trace :=
  write_command env tr "*CLS"

/-- Model of `MxSeries::reset` (src/lib.rs 420-425): send `*RST`, then a
500 ms settle delay, with no status-register check. -/
def reset (env : Env) (tr : Trace) : Except MxError Unit × Trace :=
  match write_command env tr "*RST" with
  | (.error e, tr1) => (.error e, tr1)
  | (.ok _, tr1) => (.ok (), sleep_ms tr1 500)

/-- Model of `MxSeries::recall` (src/lib.rs 399-404): reject store indices
above 49 before any transport interaction, else `RCL{channel} {index}`.
(Named `recall_op` because `recall` is a reserved word in this Lean setup.) -/
def recall_op (env : Env) (tr : Trace) (channel : Nat) (index : Nat) :
    Except MxError Unit × Trace :=
  if 49 < index then
    (.error (.InvalidParameter "Store index must be 0-49."), tr)
  else
    write_and_check env tr ("RCL" ++ toString channel ++ " " ++ toString index)

/-- Model of `MxSeries::recall_all` (src/lib.rs 407-417): `*RCL {index}` after
the same bound check. -/
def recall_all (env : Env) (tr : Trace) (index : Nat) :
    Except MxError Unit × Trace :=
  if 49 < index then
    (.error (.InvalidParameter "Store index must be 0-49."), tr)
  else
    write_and_check env tr ("*RCL " ++ toString index)

/-- Model of `MxSeries::save` (src/lib.rs 433-438): `SAV{channel} {index}`
after the bound check. -/
def save (env : Env) (tr : Trace) (channel : Nat) (index : Nat) :
    Except MxError Unit × Trace :=
  if 49 < index then
    (.error (.InvalidParameter "Store index must be 0-49."), tr)
  else
    write_and_check env tr ("SAV" ++ toString channel ++ " " ++ toString index)

/-- Model of `MxSeries::save_all` (src/lib.rs 441-448): `*SAV {index}` after
the bound check. -/
def save_all (env : Env) (tr : Trace) (index : Nat) :
    Except MxError Unit × Trace :=
  if 49 < index then
    (.error (.InvalidParameter "Store index must be 0-49."), tr)
  else
    write_and_check env tr ("*SAV " ++ toString index)

/-- Model of the `MultiActionType` enum from src/lib.rs. -/
inductive MultiActionType where
  | Quick
  | Never
  | Delay
deriving DecidableEq, Repr

/-- The action strings used by `set_multi_on_action` / `set_multi_off_action`. -/
def MultiActionType.as_str : MultiActionType → String
  | .Quick => "QUICK"
  | .Never => "NEVER"
  | .Delay => "DELAY"

/-- Model of the `MultiOperationConfig` enum from src/lib.rs: `Action(bool)`
is QUICK/NEVER, `DelayMs(u16)` a delay in milliseconds. -/
inductive MultiOperationConfig where
  | Action (enable_quick : Bool)
  | DelayMs (ms : Nat)
deriving DecidableEq, Repr

/-- Model of `MxSeries::set_multi_on_action`: `ONACTION{channel} {action}`. -/
def set_multi_on_action (env : Env) (tr : Trace) (channel : Nat)
    (action : MultiActionType) : Except MxError Unit × Trace :=
  write_and_check env tr ("ONACTION" ++ toString channel ++ " " ++ action.as_str)

/-- Model of `MxSeries::set_multi_on_delay`: `ONDELAY{channel} {delay_ms}`. -/
def set_multi_on_delay (env : Env) (tr : Trace) (channel : Nat) (delay_ms : Nat) :
    Except MxError Unit × Trace :=
  write_and_check env tr ("ONDELAY" ++ toString channel ++ " " ++ toString delay_ms)

/-- Model of `MxSeries::set_multi_off_action`: `OFFACTION{channel} {action}`. -/
def set_multi_off_action (env : Env) (tr : Trace) (channel : Nat)
    (action : MultiActionType) : Except MxError Unit × Trace :=
  write_and_check env tr ("OFFACTION" ++ toString channel ++ " " ++ action.as_str)

/-- Model of `MxSeries::set_multi_off_delay`: `OFFDELAY{channel} {delay_ms}`. -/
def set_multi_off_delay (env : Env) (tr : Trace) (channel : Nat) (delay_ms : Nat) :
    Except MxError Unit × Trace :=
  write_and_check env tr ("OFFDELAY" ++ toString channel ++ " " ++ toString delay_ms)

/-- Per-channel configuration loop of `MxSeries::turn_on_multi` (src/lib.rs
356-372).  The `HashMap<u8, MultiOperationConfig>` is modelled as an
association list in the map's (unspecified but deterministic) iteration
order; each `?` in the source propagates the first error. -/
def turn_on_multi_configs (env : Env) :
    List (Nat × MultiOperationConfig) → Trace → Except MxError Unit × Trace
  | [], tr => (.ok (), tr)
  | (channel, config) :: rest, tr =>
    match config with
    | .Action enable_quick =>
      match set_multi_on_action env tr channel
          (if enable_quick then .Quick else .Never) with
      | (.error e, tr1) => (.error e, tr1)
      | (.ok _, tr1) => turn_on_multi_configs env rest tr1
    | .DelayMs ms =>
      match set_multi_on_action env tr channel .Delay with
      | (.error e, tr1) => (.error e, tr1)
      | (.ok _, tr1) =>
        match set_multi_on_delay env tr1 channel ms with
        | (.error e, tr2) => (.error e, tr2)
        | (.ok _, tr2) => turn_on_multi_configs env rest (sleep_ms tr2 100)

/-- Model of `MxSeries::turn_on_multi`: apply every per-channel configuration,
then send the aggregate `OPALL 1` exactly once. -/
def turn_on_multi (env : Env) (tr : Trace)
    (options : Option (List (Nat × MultiOperationConfig))) :
    Except MxError Unit × Trace :=
  match options with
  | some opts =>
    match turn_on_multi_configs env opts tr with
    | (.error e, tr1) => (.error e, tr1)
    | (.ok _, tr1) => write_and_check env tr1 "OPALL 1"
  | none => write_and_check env tr "OPALL 1"

/-- Per-channel configuration loop of `MxSeries::turn_off_multi` (src/lib.rs
380-396). -/
def turn_off_multi_configs (env : Env) :
    List (Nat × MultiOperationConfig) → Trace → Except MxError Unit × Trace
  | [], tr => (.ok (), tr)
  | (channel, config) :: rest, tr =>
    match config with
    | .Action enable_quick =>
      match set_multi_off_action env tr channel
          (if enable_quick then .Quick else .Never) with
      | (.error e, tr1) => (.error e, tr1)
      | (.ok _, tr1) => turn_off_multi_configs env rest tr1
    | .DelayMs ms =>
      match set_multi_off_action env tr channel .Delay with
      | (.error e, tr1) => (.error e, tr1)
      | (.ok _, tr1) =>
        match set_multi_off_delay env tr1 channel ms with
        | (.error e, tr2) => (.error e, tr2)
        | (.ok _, tr2) => turn_off_multi_configs env rest (sleep_ms tr2 100)

/-- Model of `MxSeries::turn_off_multi`: per-channel configuration, then the
aggregate `OPALL 0` exactly once. -/
def turn_off_multi (env : Env) (tr : Trace)
    (options : Option (List (Nat × MultiOperationConfig))) :
    Except MxError Unit × Trace :=
  match options with
  | some opts =>
    match turn_off_multi_configs env opts tr with
    | (.error e, tr1) => (.error e, tr1)
    | (.ok _, tr1) => write_and_check env tr1 "OPALL 0"
  | none => write_and_check env tr "OPALL 0"

/-- UTF-8 encoding of one character (code point to byte list). -/
def utf8EncodeChar (c : Char) : List Nat :=
  let n := c.toNat
  if n < 0x80 then [n]
  else if n < 0x800 then [0xC0 ||| (n >>> 6), 0x80 ||| (n &&& 0x3F)]
  else if n < 0x10000 then
    [0xE0 ||| (n >>> 12), 0x80 ||| ((n >>> 6) &&& 0x3F), 0x80 ||| (n &&& 0x3F)]
  else
    [0xF0 ||| (n >>> 18), 0x80 ||| ((n >>> 12) &&& 0x3F),
     0x80 ||| ((n >>> 6) &&& 0x3F), 0x80 ||| (n &&& 0x3F)]

/-- UTF-8 byte sequence of a string. -/
def strBytes (s : String) : List Nat := (s.data.map utf8EncodeChar).flatten

/-- Is `b` a UTF-8 continuation byte (`10xxxxxx`)? -/
def isContByte (b : Nat) : Bool := b &&& 0xC0 == 0x80

/-- Byte-at-a-time UTF-8 decoding state machine: `pending` continuation
bytes still expected, `cp` the partial code point, `mincp` the smallest code
point the current sequence is allowed to produce (overlong rejection), `acc`
the decoded characters in reverse. -/
def utf8DecodeAux : List Nat → Nat → Nat → Nat → List Char → Option (List Char)
  | [], pending, _, _, acc => if pending = 0 then some acc.reverse else none
  | b :: rest, pending, cp, mincp, acc =>
    if pending = 0 then
      if b < 0x80 then utf8DecodeAux rest 0 0 0 (Char.ofNat b :: acc)
      else if b < 0xC2 then none
      else if b < 0xE0 then utf8DecodeAux rest 1 (b &&& 0x1F) 0x80 acc
      else if b < 0xF0 then utf8DecodeAux rest 2 (b &&& 0x0F) 0x800 acc
      else if b < 0xF5 then utf8DecodeAux rest 3 (b &&& 0x07) 0x10000 acc
      else none
    else
      if isContByte b then
        if pending = 1 then
          if (cp <<< 6) ||| (b &&& 0x3F) < mincp ∨
              (0xD800 ≤ (cp <<< 6) ||| (b &&& 0x3F) ∧ (cp <<< 6) ||| (b &&& 0x3F) ≤ 0xDFFF) ∨
              0x10FFFF < (cp <<< 6) ||| (b &&& 0x3F) then none
          else utf8DecodeAux rest 0 0 0 (Char.ofNat ((cp <<< 6) ||| (b &&& 0x3F)) :: acc)
        else utf8DecodeAux rest (pending - 1) ((cp <<< 6) ||| (b &&& 0x3F)) mincp acc
      else none

/-- UTF-8 decoding of a byte list (model of `String::from_utf8` /
`read_line`'s validity check): `none` on malformed input (stray continuation
byte, overlong form, surrogate, out-of-range code point, truncated
sequence). -/
def utf8Decode? (bs : List Nat) : Option (List Char) := utf8DecodeAux bs 0 0 0 []

/-- Bytes written by `SocketConnection::write_command` (src/connection.rs
41-46): `format!("{}\n", command)` then `write_all`. -/
def SocketConnection_write_command_bytes (command : String) : List Nat :=
  strBytes (command ++ "\n")

/-- Bytes written by `SerialConnection::write_command` (src/connection.rs
78-84): identical framing. -/
def SerialConnection_write_command_bytes (command : String) : List Nat :=
  strBytes (command ++ "\n")

/-- One result of `port.read(&mut byte_buf)` in the serial read loop:
`Ok(0)`, `Ok(1)` with a byte, `Ok(n)` with `n ≥ 2` (defensive branch),
`Err` of kind `TimedOut`, or another `Err`. -/
inductive SerialEv where
  | ok0
  | okByte (b : Nat)
  | okMany
  | errTimedOut (msg : String)
  | errOther (msg : String)
deriving DecidableEq, Repr

/-- The byte-collection loop of `SerialConnection::read_response`
(src/connection.rs 90-116): stop on `Ok(0)`, a newline byte, `Ok(n ≥ 2)` or a
timeout; skip carriage returns; fail on any other I/O error.  An exhausted
event list behaves like `Ok(0)` (the stream has nothing further to offer). -/
def serial_collect : List SerialEv → List Nat → Except MxError (List Nat)
  | [], buf => .ok buf
  | ev :: rest, buf =>
    match ev with
    | .ok0 => .ok buf
    | .okByte b =>
      if b == 10 then .ok buf
      else if b == 13 then serial_collect rest buf
      else serial_collect rest (buf ++ [b])
    | .okMany => .ok buf
    | .errTimedOut _ => .ok buf
    | .errOther msg => .error (.IoError msg)

/-- Model of `SerialConnection::read_response` (src/connection.rs 86-120):
collect bytes, then `String::from_utf8` (a failure is a `Parse` error) and
trim. -/
def SerialConnection_read_response (evs : List SerialEv) : Except MxError String :=
  match serial_collect evs [] with
  | .error e => .error e
  | .ok bytes =>
    match utf8Decode? bytes with
    | some cs => .ok (rustTrim (String.mk cs))
    | none => .error (.Parse "Invalid UTF-8 sequence")

/-- One result of the underlying socket read inside
`BufReader::read_line`: end of stream, one byte, a timeout error, or another
I/O error.  (`ErrorKind::Interrupted`, the only retried kind, is omitted.) -/
inductive SocketEv where
  | eof
  | byte (b : Nat)
  | errTimedOut (msg : String)
  | errOther (msg : String)
deriving DecidableEq, Repr

/-- Model of `BufRead::read_line`'s byte collection as used by
`SocketConnection::read_response` (src/connection.rs 48-52): read until a
newline (kept in the buffer) or end of stream; any I/O error — including a
timeout — is returned as an error.  An exhausted event list behaves like end
of stream. -/
def socket_read_line : List SocketEv → List Nat → Except MxError (List Nat)
  | [], buf => .ok buf
  | ev :: rest, buf =>
    match ev with
    | .eof => .ok buf
    | .byte b =>
      if b == 10 then .ok (buf ++ [b]) else socket_read_line rest (buf ++ [b])
    | .errTimedOut msg => .error (.IoError msg)
    | .errOther msg => .error (.IoError msg)

/-- Model of `SocketConnection::read_response` (src/connection.rs 48-52):
`read_line` (whose UTF-8 violation is an `InvalidData` I/O error), then
trim. -/
def SocketConnection_read_response (evs : List SocketEv) : Except MxError String :=
  match socket_read_line evs [] with
  | .error e => .error e
  | .ok bytes =>
    match utf8Decode? bytes with
    | some cs => .ok (rustTrim (String.mk cs))
    | none => .error (.IoError "stream did not contain valid UTF-8")

/-! ### Environments and trace descriptions used by the theorems -/

/-- Environment in which every write succeeds and every read returns `"0"`
(a clear status register). -/
def allClearEnv : Env :=
  { writeRes := fun _ => .ok (), readRes := fun _ => .ok "0" }

/-- Environment whose writes all succeed and whose n-th read returns the n-th
entry of `rs` (further reads report `NotConnected`). -/
def envReads (rs : List (Except MxError String)) : Env :=
  { writeRes := fun _ => .ok (),
    readRes := fun n => rs.getD n (.error .NotConnected) }

/-- Trace description (from the spec's words): one verified mutating command
is a command write, the 50 ms settle pause, the status query write and its
read. -/
def checkedWriteSpec (cmd : String) : Trace :=
  [Eff.write cmd, Eff.sleep 50, Eff.write "*ESR?", Eff.read]

theorem parseU8_zero : parseU8? (rustTrim "0") = some 0 := rfl

/-- With a clear status register every verified write succeeds and appends
exactly `checkedWriteSpec cmd` to the trace. -/
theorem write_and_check_clear (tr : Trace) (cmd : String) :
    write_and_check allClearEnv tr cmd = (.ok (), tr ++ checkedWriteSpec cmd) := by
  simp only [write_and_check, write_command, check_event_status_register, query,
    read_response, sleep_ms, allClearEnv, checkedWriteSpec, parseU8_zero,
    List.append_assoc, List.singleton_append, List.cons_append, List.nil_append]
  norm_num

/-! ### Claims -/

/-- C9: `reset` writes `*RST` and then performs a longer fixed settle delay
(500 ms, against the standard 50 ms) with no status-register read, and
`clear` writes `*CLS` with no status-register read afterwards; neither
operation ever issues the `*ESR?` verification query. -/
theorem claim_C9 (env : Env) (h : env.writeRes 0 = .ok ()) :
    reset env [] = (.ok (), [Eff.write "*RST", Eff.sleep 500]) ∧
    clear env [] = (env.writeRes 0, [Eff.write "*CLS"]) ∧
    Eff.write "*ESR?" ∉ (reset env []).2 ∧
    Eff.write "*ESR?" ∉ (clear env []).2 ∧
    Eff.read ∉ (reset env []).2 ∧
    Eff.read ∉ (clear env []).2 ∧
    50 < 500 := by
  have hr : reset env [] = (.ok (), [Eff.write "*RST", Eff.sleep 500]) := by
    simp [reset, write_command, sleep_ms, writeCount, h]
  have hc : clear env [] = (env.writeRes 0, [Eff.write "*CLS"]) := by
    simp [clear, write_command, writeCount]
  refine ⟨hr, hc, ?_, ?_, ?_, ?_, by norm_num⟩ <;> simp [hr, hc]

theorem claim_C9_witness :
    reset allClearEnv [] = (.ok (), [Eff.write "*RST", Eff.sleep 500]) ∧
    clear allClearEnv [] = (allClearEnv.writeRes 0, [Eff.write "*CLS"]) ∧
    Eff.write "*ESR?" ∉ (reset allClearEnv []).2 ∧
    Eff.write "*ESR?" ∉ (clear allClearEnv []).2 ∧
    Eff.read ∉ (reset allClearEnv []).2 ∧
    Eff.read ∉ (clear allClearEnv []).2 ∧
    50 < 500 :=
  claim_C9 allClearEnv rfl

/-- C10: the Error Code Table maps code 0 to category "OK", so a command
whose post-settle status byte is 16 (bit 4 set) followed by an `EER?` reply
of `0` fails with a resolved execution-rejection of code 0 and category
"OK", not with success and not with an undefined-code condition. -/
theorem claim_C10 :
    EXECUTION_ERROR_CODES 0 =
      some ("OK", "No error has occurred since this register was last read.") ∧
    write_and_check (envReads [.ok "16", .ok "0"]) [] "V1 1.000" =
      (.error (.ExecutionError 0 "OK"
        "No error has occurred since this register was last read."),
       [Eff.write "V1 1.000", Eff.sleep 50, Eff.write "*ESR?", Eff.read,
        Eff.write "EER?", Eff.read]) :=
  ⟨rfl, rfl⟩

/-- C7: every save/recall style operation rejects a store index above 49 with
an invalid-parameter condition before anything reaches the transport (the
trace stays empty, for an arbitrary environment), while an index of at most
49 passes the check and the operation's command string is written to the
transport. -/
theorem claim_C7 (env : Env) (channel index : Nat) :
    (49 < index →
      recall_op env [] channel index =
        (.error (.InvalidParameter "Store index must be 0-49."), []) ∧
      save env [] channel index =
        (.error (.InvalidParameter "Store index must be 0-49."), []) ∧
      recall_all env [] index =
        (.error (.InvalidParameter "Store index must be 0-49."), []) ∧
      save_all env [] index =
        (.error (.InvalidParameter "Store index must be 0-49."), [])) ∧
    (index ≤ 49 →
      recall_op allClearEnv [] channel index =
        (.ok (), checkedWriteSpec ("RCL" ++ toString channel ++ " " ++ toString index)) ∧
      save allClearEnv [] channel index =
        (.ok (), checkedWriteSpec ("SAV" ++ toString channel ++ " " ++ toString index)) ∧
      recall_all allClearEnv [] index =
        (.ok (), checkedWriteSpec ("*RCL " ++ toString index)) ∧
      save_all allClearEnv [] index =
        (.ok (), checkedWriteSpec ("*SAV " ++ toString index))) := by
  constructor
  · intro hgt
    refine ⟨?_, ?_, ?_, ?_⟩ <;> simp [recall_op, save, recall_all, save_all, hgt]
  · intro hle
    have hnot : ¬ 49 < index := not_lt.mpr hle
    refine ⟨?_, ?_, ?_, ?_⟩ <;>
      simp [recall_op, save, recall_all, save_all, hnot, write_and_check_clear]

theorem claim_C7_witness :
    ((49 < 50 →
      recall_op allClearEnv [] 1 50 =
        (.error (.InvalidParameter "Store index must be 0-49."), []) ∧
      save allClearEnv [] 1 50 =
        (.error (.InvalidParameter "Store index must be 0-49."), []) ∧
      recall_all allClearEnv [] 50 =
        (.error (.InvalidParameter "Store index must be 0-49."), []) ∧
      save_all allClearEnv [] 50 =
        (.error (.InvalidParameter "Store index must be 0-49."), [])) ∧
    (50 ≤ 49 → True)) ∧
    ((49 < 49 → True) ∧
    (49 ≤ 49 →
      recall_op allClearEnv [] 1 49 =
        (.ok (), checkedWriteSpec ("RCL" ++ toString 1 ++ " " ++ toString 49)) ∧
      save allClearEnv [] 1 49 =
        (.ok (), checkedWriteSpec ("SAV" ++ toString 1 ++ " " ++ toString 49)) ∧
      recall_all allClearEnv [] 49 =
        (.ok (), checkedWriteSpec ("*RCL " ++ toString 49)) ∧
      save_all allClearEnv [] 49 =
        (.ok (), checkedWriteSpec ("*SAV " ++ toString 49)))) :=
  ⟨⟨(claim_C7 allClearEnv 1 50).1, fun _ => trivial⟩,
   ⟨fun _ => trivial, (claim_C7 allClearEnv 1 49).2⟩⟩

/-- C1: on the mutating path, when the post-settle status byte has the
execution-error bit 4 set and the higher-precedence bit 5 clear, the engine
issues the `EER?` query; a code present in the Error Code Table produces an
execution-rejection carrying exactly that code's category and description,
and a code absent from the table produces an undefined-device-error
condition carrying the raw code and the original command text. -/
theorem claim_C1 (cmd statusStr eerStr : String) (v : Nat) (c : Int)
    (hp : parseU8? (rustTrim statusStr) = some v)
    (h32 : v &&& 0b00100000 = 0) (h16 : v &&& 0b00010000 ≠ 0)
    (hc : parseI32? (rustTrim eerStr) = some c) :
    Eff.write "EER?" ∈ (write_and_check (envReads [.ok statusStr, .ok eerStr]) [] cmd).2 ∧
    (∀ t d, EXECUTION_ERROR_CODES c = some (t, d) →
       (write_and_check (envReads [.ok statusStr, .ok eerStr]) [] cmd).1 =
         .error (.ExecutionError c t d)) ∧
    (EXECUTION_ERROR_CODES c = none →
       (write_and_check (envReads [.ok statusStr, .ok eerStr]) [] cmd).1 =
         .error (.UndefinedDeviceErrorCode c cmd)) := by
  rcases hE : EXECUTION_ERROR_CODES c with _ | ⟨t0, d0⟩
  · refine ⟨?_, ?_, ?_⟩
    · simp [write_and_check, write_command, check_event_status_register, query, read_response,
        sleep_ms, envReads, writeCount, readCount, hp, h32, h16, hc, hE]
    · intro t d hsome
      exact absurd hsome (by simp)
    · intro _
      simp [write_and_check, write_command, check_event_status_register, query, read_response,
        sleep_ms, envReads, writeCount, readCount, hp, h32, h16, hc, hE]
  · refine ⟨?_, ?_, ?_⟩
    · simp [write_and_check, write_command, check_event_status_register, query, read_response,
        sleep_ms, envReads, writeCount, readCount, hp, h32, h16, hc, hE]
    · intro t d hsome
      injection hsome with hpair
      cases hpair
      simp [write_and_check, write_command, check_event_status_register, query, read_response,
        sleep_ms, envReads, writeCount, readCount, hp, h32, h16, hc, hE]
    · intro hnone
      exact absurd hnone (by simp)

theorem claim_C1_witness :
    (write_and_check (envReads [.ok "16", .ok "100"]) [] "V1 2.000").1 =
      .error (.ExecutionError 100 "NumericError"
        "The parameter value sent was outside the permitted range for the command in the present circumstances.") ∧
    (write_and_check (envReads [.ok "16", .ok "999"]) [] "V1 2.000").1 =
      .error (.UndefinedDeviceErrorCode 999 "V1 2.000") ∧
    Eff.write "EER?" ∈ (write_and_check (envReads [.ok "16", .ok "100"]) [] "V1 2.000").2 :=
  ⟨(claim_C1 "V1 2.000" "16" "100" 16 100 rfl (by decide) (by decide) rfl).2.1 _ _ rfl,
   (claim_C1 "V1 2.000" "16" "999" 16 999 rfl (by decide) (by decide) rfl).2.2 rfl,
   (claim_C1 "V1 2.000" "16" "100" 16 100 rfl (by decide) (by decide) rfl).1⟩

/-- C2: after the settle interval the mutating path inspects status bits in
the fixed precedence order bit 5 (syntax), bit 4 (execution), bit 3
(device-dependent), bit 2 (query), failing with the condition of the first
set bit; bits 0, 1, 6 and 7 are ignored; when bits 5 and 4 are both set the
result is the syntax-rejection (and no `EER?` query is even issued, as the
trace equality shows); a status byte with bits 2-5 clear means success. -/
theorem claim_C2 (cmd statusStr : String) (v : Nat) (eer : Except MxError String)
    (hp : parseU8? (rustTrim statusStr) = some v) :
    (v &&& 0b00100000 ≠ 0 →
       write_and_check (envReads [.ok statusStr, eer]) [] cmd =
         (.error (.CommandError ("Syntax error in command or parameter. Command: \x27" ++ cmd ++ "\x27")),
          checkedWriteSpec cmd)) ∧
    (v &&& 0b00100000 = 0 → v &&& 0b00010000 ≠ 0 →
       (∃ e, (write_and_check (envReads [.ok statusStr, eer]) [] cmd).1 = .error e) ∧
       Eff.write "EER?" ∈ (write_and_check (envReads [.ok statusStr, eer]) [] cmd).2) ∧
    (v &&& 0b00100000 = 0 → v &&& 0b00010000 = 0 → v &&& 0b00001000 ≠ 0 →
       write_and_check (envReads [.ok statusStr, eer]) [] cmd =
         (.error (.VerifyTimeoutError ("Verify timeout or device dependent error. Command: \x27" ++ cmd ++ "\x27")),
          checkedWriteSpec cmd)) ∧
    (v &&& 0b00100000 = 0 → v &&& 0b00010000 = 0 → v &&& 0b00001000 = 0 → v &&& 0b00000100 ≠ 0 →
       write_and_check (envReads [.ok statusStr, eer]) [] cmd =
         (.error (.QueryError ("Query error (e.g., attempt to read without sending command). Command: \x27" ++ cmd ++ "\x27")),
          checkedWriteSpec cmd)) ∧
    (v &&& 0b00100000 = 0 → v &&& 0b00010000 = 0 → v &&& 0b00001000 = 0 → v &&& 0b00000100 = 0 →
       write_and_check (envReads [.ok statusStr, eer]) [] cmd = (.ok (), checkedWriteSpec cmd)) := by
  refine ⟨?_, ?_, ?_, ?_, ?_⟩
  · intro h32
    simp [write_and_check, write_command, check_event_status_register, query, read_response,
      sleep_ms, envReads, writeCount, readCount, hp, h32, checkedWriteSpec]
  · intro h32 h16
    rcases eer with e0 | s
    · constructor
      · refine ⟨e0, ?_⟩
        simp [write_and_check, write_command, check_event_status_register, query, read_response,
          sleep_ms, envReads, writeCount, readCount, hp, h32, h16]
      · simp [write_and_check, write_command, check_event_status_register, query, read_response,
          sleep_ms, envReads, writeCount, readCount, hp, h32, h16]
    · rcases hI : parseI32? (rustTrim s) with _ | c
      · constructor
        · refine ⟨.Parse ("Failed to parse EER value: " ++ rustTrim s), ?_⟩
          simp [write_and_check, write_command, check_event_status_register, query, read_response,
            sleep_ms, envReads, writeCount, readCount, hp, h32, h16, hI]
        · simp [write_and_check, write_command, check_event_status_register, query, read_response,
            sleep_ms, envReads, writeCount, readCount, hp, h32, h16, hI]
      · rcases hE : EXECUTION_ERROR_CODES c with _ | ⟨t, d⟩
        · constructor
          · refine ⟨.UndefinedDeviceErrorCode c cmd, ?_⟩
            simp [write_and_check, write_command, check_event_status_register, query, read_response,
              sleep_ms, envReads, writeCount, readCount, hp, h32, h16, hI, hE]
          · simp [write_and_check, write_command, check_event_status_register, query, read_response,
              sleep_ms, envReads, writeCount, readCount, hp, h32, h16, hI, hE]
        · constructor
          · refine ⟨.ExecutionError c t d, ?_⟩
            simp [write_and_check, write_command, check_event_status_register, query, read_response,
              sleep_ms, envReads, writeCount, readCount, hp, h32, h16, hI, hE]
          · simp [write_and_check, write_command, check_event_status_register, query, read_response,
              sleep_ms, envReads, writeCount, readCount, hp, h32, h16, hI, hE]
  · intro h32 h16 h8
    simp [write_and_check, write_command, check_event_status_register, query, read_response,
      sleep_ms, envReads, writeCount, readCount, hp, h32, h16, h8, checkedWriteSpec]
  · intro h32 h16 h8 h4
    simp [write_and_check, write_command, check_event_status_register, query, read_response,
      sleep_ms, envReads, writeCount, readCount, hp, h32, h16, h8, h4, checkedWriteSpec]
  · intro h32 h16 h8 h4
    simp [write_and_check, write_command, check_event_status_register, query, read_response,
      sleep_ms, envReads, writeCount, readCount, hp, h32, h16, h8, h4, checkedWriteSpec]

theorem claim_C2_witness :
    write_and_check (envReads [.ok "48", .ok "0"]) [] "OP1 1" =
      (.error (.CommandError "Syntax error in command or parameter. Command: \x27OP1 1\x27"),
       checkedWriteSpec "OP1 1") ∧
    write_and_check (envReads [.ok "0", .ok "0"]) [] "OP1 1" =
      (.ok (), checkedWriteSpec "OP1 1") ∧
    write_and_check (envReads [.ok "195", .ok "0"]) [] "OP1 1" =
      (.ok (), checkedWriteSpec "OP1 1") :=
  ⟨(claim_C2 "OP1 1" "48" 48 (.ok "0") rfl).1 (by decide),
   (claim_C2 "OP1 1" "0" 0 (.ok "0") rfl).2.2.2.2 (by decide) (by decide) (by decide) (by decide),
   (claim_C2 "OP1 1" "195" 195 (.ok "0") rfl).2.2.2.2 (by decide) (by decide) (by decide) (by decide)⟩

/-- C3: when the channel-level query fails with a communication error, the
status-register interrogation runs; a clear register (bits 2-5 all unset)
surfaces the original communication error unchanged, while a set error bit
surfaces the resolved device error in its place (shown for each of the four
inspected bits; the execution-error bit resolves through the table). -/
theorem claim_C3 (cmd statusStr : String) (e0 : MxError) (v : Nat)
    (eer : Except MxError String)
    (hp : parseU8? (rustTrim statusStr) = some v) :
    (v &&& 0b00100000 = 0 → v &&& 0b00010000 = 0 → v &&& 0b00001000 = 0 → v &&& 0b00000100 = 0 →
       (query_and_check (envReads [.error e0, .ok statusStr, eer]) [] cmd).1 = .error e0) ∧
    (v &&& 0b00100000 ≠ 0 →
       (query_and_check (envReads [.error e0, .ok statusStr, eer]) [] cmd).1 =
         .error (.CommandError ("Syntax error in command or parameter. Command: \x27" ++ cmd ++ "\x27"))) ∧
    (v &&& 0b00100000 = 0 → v &&& 0b00010000 ≠ 0 → ∀ s c t d, eer = .ok s →
       parseI32? (rustTrim s) = some c → EXECUTION_ERROR_CODES c = some (t, d) →
       (query_and_check (envReads [.error e0, .ok statusStr, eer]) [] cmd).1 =
         .error (.ExecutionError c t d)) ∧
    (v &&& 0b00100000 = 0 → v &&& 0b00010000 = 0 → v &&& 0b00001000 ≠ 0 →
       (query_and_check (envReads [.error e0, .ok statusStr, eer]) [] cmd).1 =
         .error (.VerifyTimeoutError ("Verify timeout or device dependent error. Command: \x27" ++ cmd ++ "\x27"))) ∧
    (v &&& 0b00100000 = 0 → v &&& 0b00010000 = 0 → v &&& 0b00001000 = 0 → v &&& 0b00000100 ≠ 0 →
       (query_and_check (envReads [.error e0, .ok statusStr, eer]) [] cmd).1 =
         .error (.QueryError ("Query error (e.g., attempt to read without sending command). Command: \x27" ++ cmd ++ "\x27"))) := by
  refine ⟨?_, ?_, ?_, ?_, ?_⟩
  · intro h32 h16 h8 h4
    simp [query_and_check, query, write_command, read_response, check_event_status_register,
      sleep_ms, envReads, writeCount, readCount, hp, h32, h16, h8, h4]
  · intro h32
    simp [query_and_check, query, write_command, read_response, check_event_status_register,
      sleep_ms, envReads, writeCount, readCount, hp, h32]
  · intro h32 h16 s c t d heer hI hE
    subst heer
    simp [query_and_check, query, write_command, read_response, check_event_status_register,
      sleep_ms, envReads, writeCount, readCount, hp, h32, h16, hI, hE]
  · intro h32 h16 h8
    simp [query_and_check, query, write_command, read_response, check_event_status_register,
      sleep_ms, envReads, writeCount, readCount, hp, h32, h16, h8]
  · intro h32 h16 h8 h4
    simp [query_and_check, query, write_command, read_response, check_event_status_register,
      sleep_ms, envReads, writeCount, readCount, hp, h32, h16, h8, h4]

theorem claim_C3_witness :
    (query_and_check (envReads [.error (.IoError "connection timed out"), .ok "0", .ok "0"])
        [] "V1O?").1 = .error (.IoError "connection timed out") ∧
    (query_and_check (envReads [.error (.IoError "connection timed out"), .ok "16", .ok "100"])
        [] "V1O?").1 =
      .error (.ExecutionError 100 "NumericError"
        "The parameter value sent was outside the permitted range for the command in the present circumstances.") :=
  ⟨(claim_C3 "V1O?" "0" (.IoError "connection timed out") 0 (.ok "0") rfl).1
      (by decide) (by decide) (by decide) (by decide),
   (claim_C3 "V1O?" "16" (.IoError "connection timed out") 16 (.ok "100") rfl).2.2.1
      (by decide) (by decide) "100" 100 "NumericError"
      "The parameter value sent was outside the permitted range for the command in the present circumstances."
      rfl rfl rfl⟩

/-- C4: a channel-level query that succeeds returns the trimmed response and
performs no status-register read at all: the whole trace is the command
write and its response read, with no `*ESR?` write. -/
theorem claim_C4 (env : Env) (cmd resp : String)
    (hw : env.writeRes 0 = .ok ()) (hr : env.readRes 0 = .ok resp) :
    query_and_check env [] cmd = (.ok (rustTrim resp), [Eff.write cmd, Eff.read]) ∧
    ∀ e ∈ (query_and_check env [] cmd).2, e = Eff.write cmd ∨ e = Eff.read := by
  have h1 : query_and_check env [] cmd = (.ok (rustTrim resp), [Eff.write cmd, Eff.read]) := by
    simp [query_and_check, query, write_command, read_response, writeCount, readCount, hw, hr]
  refine ⟨h1, ?_⟩
  rw [h1]
  intro e he
  simpa using he

theorem claim_C4_witness :
    (query_and_check (envReads [.ok "1.234A\r\n"]) [] "V1O?" =
      (.ok (rustTrim "1.234A\r\n"), [Eff.write "V1O?", Eff.read]) ∧
    ∀ e ∈ (query_and_check (envReads [.ok "1.234A\r\n"]) [] "V1O?").2,
      e = Eff.write "V1O?" ∨ e = Eff.read) ∧
    rustTrim "1.234A\r\n" = "1.234A" :=
  ⟨claim_C4 (envReads [.ok "1.234A\r\n"]) "V1O?" "1.234A\r\n" rfl rfl, rfl⟩

/-- Trace description (from the spec's words) of one channel's configuration
during a Multi-On request: an Action entry is one verified mode-set command;
a Delay entry is the verified mode-set command (whose settle pause separates
it from the next command), the verified delay-value command, then the fixed
100 ms pause. -/
def onSegmentSpec : Nat × MultiOperationConfig → Trace
  | (ch, .Action q) =>
      checkedWriteSpec ("ONACTION" ++ toString ch ++ " " ++ (if q then "QUICK" else "NEVER"))
  | (ch, .DelayMs ms) =>
      checkedWriteSpec ("ONACTION" ++ toString ch ++ " " ++ "DELAY") ++
      checkedWriteSpec ("ONDELAY" ++ toString ch ++ " " ++ toString ms) ++ [Eff.sleep 100]

/-- Trace description of one channel's configuration during a Multi-Off
request. -/
def offSegmentSpec : Nat × MultiOperationConfig → Trace
  | (ch, .Action q) =>
      checkedWriteSpec ("OFFACTION" ++ toString ch ++ " " ++ (if q then "QUICK" else "NEVER"))
  | (ch, .DelayMs ms) =>
      checkedWriteSpec ("OFFACTION" ++ toString ch ++ " " ++ "DELAY") ++
      checkedWriteSpec ("OFFDELAY" ++ toString ch ++ " " ++ toString ms) ++ [Eff.sleep 100]

theorem onaction_ne_opall1 (s : String) : ("ONACTION" ++ s) ≠ "OPALL 1" := by
  intro he
  have h2 : 'O' :: 'N' :: (['A', 'C', 'T', 'I', 'O', 'N'] ++ s.data) =
      ['O', 'P', 'A', 'L', 'L', ' ', '1'] := congrArg String.data he
  injection h2 with _ h3
  injection h3 with h4 _
  exact absurd h4 (by decide)

theorem ondelay_ne_opall1 (s : String) : ("ONDELAY" ++ s) ≠ "OPALL 1" := by
  intro he
  have h2 : 'O' :: 'N' :: (['D', 'E', 'L', 'A', 'Y'] ++ s.data) =
      ['O', 'P', 'A', 'L', 'L', ' ', '1'] := congrArg String.data he
  injection h2 with _ h3
  injection h3 with h4 _
  exact absurd h4 (by decide)

theorem offaction_ne_opall0 (s : String) : ("OFFACTION" ++ s) ≠ "OPALL 0" := by
  intro he
  have h2 : 'O' :: 'F' :: (['F', 'A', 'C', 'T', 'I', 'O', 'N'] ++ s.data) =
      ['O', 'P', 'A', 'L', 'L', ' ', '0'] := congrArg String.data he
  injection h2 with _ h3
  injection h3 with h4 _
  exact absurd h4 (by decide)

theorem offdelay_ne_opall0 (s : String) : ("OFFDELAY" ++ s) ≠ "OPALL 0" := by
  intro he
  have h2 : 'O' :: 'F' :: (['F', 'D', 'E', 'L', 'A', 'Y'] ++ s.data) =
      ['O', 'P', 'A', 'L', 'L', ' ', '0'] := congrArg String.data he
  injection h2 with _ h3
  injection h3 with h4 _
  exact absurd h4 (by decide)

theorem onsegment_no_opall1 (x : Nat × MultiOperationConfig) :
    (onSegmentSpec x).countP (fun e => e == Eff.write "OPALL 1") = 0 := by
  obtain ⟨ch, cfg⟩ := x
  cases cfg with
  | Action q =>
    cases q <;>
      simp [onSegmentSpec, checkedWriteSpec, List.countP_cons, String.append_assoc,
        onaction_ne_opall1]
  | DelayMs ms =>
    simp [onSegmentSpec, checkedWriteSpec, List.countP_cons, List.countP_append,
      String.append_assoc, onaction_ne_opall1, ondelay_ne_opall1]

theorem offsegment_no_opall0 (x : Nat × MultiOperationConfig) :
    (offSegmentSpec x).countP (fun e => e == Eff.write "OPALL 0") = 0 := by
  obtain ⟨ch, cfg⟩ := x
  cases cfg with
  | Action q =>
    cases q <;>
      simp [offSegmentSpec, checkedWriteSpec, List.countP_cons, String.append_assoc,
        offaction_ne_opall0]
  | DelayMs ms =>
    simp [offSegmentSpec, checkedWriteSpec, List.countP_cons, List.countP_append,
      String.append_assoc, offaction_ne_opall0, offdelay_ne_opall0]

theorem turn_on_multi_configs_clear (opts : List (Nat × MultiOperationConfig)) :
    ∀ tr, turn_on_multi_configs allClearEnv opts tr =
      (.ok (), tr ++ (opts.map onSegmentSpec).flatten) := by
  induction opts with
  | nil => intro tr; simp [turn_on_multi_configs]
  | cons x rest ih =>
    intro tr
    obtain ⟨ch, cfg⟩ := x
    cases cfg with
    | Action q =>
      cases q <;>
        simp [turn_on_multi_configs, set_multi_on_action, MultiActionType.as_str,
          write_and_check_clear, ih, onSegmentSpec, checkedWriteSpec, sleep_ms,
          List.append_assoc]
    | DelayMs ms =>
      simp [turn_on_multi_configs, set_multi_on_action, set_multi_on_delay,
        MultiActionType.as_str, write_and_check_clear, ih, onSegmentSpec,
        checkedWriteSpec, sleep_ms, List.append_assoc]

theorem turn_off_multi_configs_clear (opts : List (Nat × MultiOperationConfig)) :
    ∀ tr, turn_off_multi_configs allClearEnv opts tr =
      (.ok (), tr ++ (opts.map offSegmentSpec).flatten) := by
  induction opts with
  | nil => intro tr; simp [turn_off_multi_configs]
  | cons x rest ih =>
    intro tr
    obtain ⟨ch, cfg⟩ := x
    cases cfg with
    | Action q =>
      cases q <;>
        simp [turn_off_multi_configs, set_multi_off_action, MultiActionType.as_str,
          write_and_check_clear, ih, offSegmentSpec, checkedWriteSpec, sleep_ms,
          List.append_assoc]
    | DelayMs ms =>
      simp [turn_off_multi_configs, set_multi_off_action, set_multi_off_delay,
        MultiActionType.as_str, write_and_check_clear, ih, offSegmentSpec,
        checkedWriteSpec, sleep_ms, List.append_assoc]

/-- C5: a multi-channel on (or off) request plays, for each configured
channel in order, its configuration segment — for a delay configuration the
mode-set command, the settle pause, then the delay-value command and the
100 ms pause — and only after all per-channel segments issues the aggregate
all-channels command; the aggregate command appears exactly once in the
whole trace, never once per channel. -/
theorem claim_C5 (opts : List (Nat × MultiOperationConfig)) :
    turn_on_multi allClearEnv [] (some opts) =
      (.ok (), (opts.map onSegmentSpec).flatten ++ checkedWriteSpec "OPALL 1") ∧
    turn_off_multi allClearEnv [] (some opts) =
      (.ok (), (opts.map offSegmentSpec).flatten ++ checkedWriteSpec "OPALL 0") ∧
    (turn_on_multi allClearEnv [] (some opts)).2.countP
      (fun e => e == Eff.write "OPALL 1") = 1 ∧
    (turn_off_multi allClearEnv [] (some opts)).2.countP
      (fun e => e == Eff.write "OPALL 0") = 1 := by
  have hon : turn_on_multi allClearEnv [] (some opts) =
      (.ok (), (opts.map onSegmentSpec).flatten ++ checkedWriteSpec "OPALL 1") := by
    simp [turn_on_multi, turn_on_multi_configs_clear, write_and_check_clear]
  have hoff : turn_off_multi allClearEnv [] (some opts) =
      (.ok (), (opts.map offSegmentSpec).flatten ++ checkedWriteSpec "OPALL 0") := by
    simp [turn_off_multi, turn_off_multi_configs_clear, write_and_check_clear]
  refine ⟨hon, hoff, ?_, ?_⟩
  · rw [hon]
    simp [List.countP_append, List.countP_flatten, List.map_map, Function.comp,
      onsegment_no_opall1, checkedWriteSpec, List.countP_cons]
    exact List.sum_eq_zero (by
      intro n hn
      obtain ⟨x, hx, rfl⟩ := List.mem_map.mp hn
      exact onsegment_no_opall1 x)
  · rw [hoff]
    simp [List.countP_append, List.countP_flatten, List.map_map, Function.comp,
      offsegment_no_opall0, checkedWriteSpec, List.countP_cons]
    exact List.sum_eq_zero (by
      intro n hn
      obtain ⟨x, hx, rfl⟩ := List.mem_map.mp hn
      exact offsegment_no_opall0 x)

theorem utf8DecodeAux_ascii (bs : List Nat) (h : ∀ b ∈ bs, b < 128) :
    ∀ acc, utf8DecodeAux bs 0 0 0 acc = some (acc.reverse ++ bs.map Char.ofNat) := by
  induction bs with
  | nil => intro acc; simp [utf8DecodeAux]
  | cons b rest ih =>
    intro acc
    have hb : b < 128 := h b (by simp)
    have ih' := ih (fun x hx => h x (by simp [hx]))
    simp [utf8DecodeAux, hb, ih' (Char.ofNat b :: acc)]

theorem utf8Decode_ascii (bs : List Nat) (h : ∀ b ∈ bs, b < 128) :
    utf8Decode? bs = some (bs.map Char.ofNat) := by
  simpa [utf8Decode?] using utf8DecodeAux_ascii bs h []

theorem serial_collect_append (bs : List Nat) (h10 : ∀ b ∈ bs, b ≠ 10)
    (h13 : ∀ b ∈ bs, b ≠ 13) :
    ∀ evs acc, serial_collect (bs.map SerialEv.okByte ++ evs) acc =
      serial_collect evs (acc ++ bs) := by
  induction bs with
  | nil => intro evs acc; simp
  | cons b rest ih =>
    intro evs acc
    have hb10 : (b == 10) = false := by simp [h10 b (by simp)]
    have hb13 : (b == 13) = false := by simp [h13 b (by simp)]
    have ih' := ih (fun x hx => h10 x (by simp [hx])) (fun x hx => h13 x (by simp [hx]))
    simp [serial_collect, hb10, hb13, ih', List.append_assoc]

theorem socket_read_line_append (bs : List Nat) (h10 : ∀ b ∈ bs, b ≠ 10) :
    ∀ evs acc, socket_read_line (bs.map SocketEv.byte ++ evs) acc =
      socket_read_line evs (acc ++ bs) := by
  induction bs with
  | nil => intro evs acc; simp
  | cons b rest ih =>
    intro evs acc
    have hb10 : (b == 10) = false := by simp [h10 b (by simp)]
    have ih' := ih (fun x hx => h10 x (by simp [hx]))
    simp [socket_read_line, hb10, ih', List.append_assoc]

/-- C6 (amended): when the transport runs out of bytes before a line
terminator arrives, the serial realization returns the bytes collected so
far, trimmed, as a successful result — both when the read times out and at
end of stream; the socket realization does so only at end of stream
(no-more-bytes), while a socket read timeout surfaces as an I/O error
rather than as a partial line. -/
theorem claim_C6 (bs : List Nat) (msg : String)
    (hlt : ∀ b ∈ bs, b < 128) (h10 : ∀ b ∈ bs, b ≠ 10) (h13 : ∀ b ∈ bs, b ≠ 13) :
    SerialConnection_read_response (bs.map SerialEv.okByte ++ [SerialEv.errTimedOut msg]) =
      .ok (rustTrim (String.mk (bs.map Char.ofNat))) ∧
    SerialConnection_read_response (bs.map SerialEv.okByte ++ [SerialEv.ok0]) =
      .ok (rustTrim (String.mk (bs.map Char.ofNat))) ∧
    SocketConnection_read_response (bs.map SocketEv.byte ++ [SocketEv.eof]) =
      .ok (rustTrim (String.mk (bs.map Char.ofNat))) ∧
    SocketConnection_read_response (bs.map SocketEv.byte ++ [SocketEv.errTimedOut msg]) =
      .error (.IoError msg) := by
  have hser := serial_collect_append bs h10 h13
  have hsoc := socket_read_line_append bs h10
  have hdec := utf8Decode_ascii bs hlt
  refine ⟨?_, ?_, ?_, ?_⟩ <;>
    simp [SerialConnection_read_response, SocketConnection_read_response, hser, hsoc,
      serial_collect, socket_read_line, hdec]

theorem claim_C6_witness :
    (SerialConnection_read_response
        ([49, 46, 50, 51, 52, 65].map SerialEv.okByte ++ [SerialEv.errTimedOut "timed out"]) =
      .ok (rustTrim (String.mk ([49, 46, 50, 51, 52, 65].map Char.ofNat))) ∧
    SerialConnection_read_response
        ([49, 46, 50, 51, 52, 65].map SerialEv.okByte ++ [SerialEv.ok0]) =
      .ok (rustTrim (String.mk ([49, 46, 50, 51, 52, 65].map Char.ofNat))) ∧
    SocketConnection_read_response
        ([49, 46, 50, 51, 52, 65].map SocketEv.byte ++ [SocketEv.eof]) =
      .ok (rustTrim (String.mk ([49, 46, 50, 51, 52, 65].map Char.ofNat))) ∧
    SocketConnection_read_response
        ([49, 46, 50, 51, 52, 65].map SocketEv.byte ++ [SocketEv.errTimedOut "timed out"]) =
      .error (.IoError "timed out")) ∧
    rustTrim (String.mk ([49, 46, 50, 51, 52, 65].map Char.ofNat)) = "1.234A" :=
  ⟨claim_C6 [49, 46, 50, 51, 52, 65] "timed out" (by decide) (by decide) (by decide), rfl⟩

/-- C6, counterexample to the claim as stated: on the socket realization a
read that collects the byte `'1'` and then times out returns an I/O error,
not the collected bytes as a successful result. -/
theorem claim_C6_counterexample :
    SocketConnection_read_response [SocketEv.byte 49, SocketEv.errTimedOut "timed out"] =
      .error (.IoError "timed out") ∧
    SocketConnection_read_response [SocketEv.byte 49, SocketEv.errTimedOut "timed out"] ≠
      .ok "1" := by
  refine ⟨rfl, fun h => ?_⟩
  rw [show SocketConnection_read_response [SocketEv.byte 49, SocketEv.errTimedOut "timed out"] =
      Except.error (MxError.IoError "timed out") from rfl] at h
  exact Except.noConfusion h

theorem strBytes_append (s t : String) : strBytes (s ++ t) = strBytes s ++ strBytes t := by
  have h : (s ++ t).data = s.data ++ t.data := rfl
  rw [strBytes, strBytes, strBytes, h, List.map_append, List.flatten_append]

theorem trimList_append_newline (cs : List Char) :
    trimList (cs ++ ['\n']) = trimList cs := by
  have hnl : isWS '\n' = true := rfl
  unfold trimList
  rw [List.dropWhile_append]
  by_cases h : (cs.dropWhile isWS).isEmpty
  · rw [if_pos h]
    have h2 : cs.dropWhile isWS = [] := by simpa using h
    rw [h2]
    simp [List.dropWhile_cons, hnl]
  · rw [if_neg h]
    simp [List.reverse_append, List.dropWhile_cons, hnl]

theorem serial_collect_append_filter (bs : List Nat) (h10 : ∀ b ∈ bs, b ≠ 10) :
    ∀ evs acc, serial_collect (bs.map SerialEv.okByte ++ evs) acc =
      serial_collect evs (acc ++ bs.filter (fun b => b != 13)) := by
  induction bs with
  | nil => intro evs acc; simp
  | cons b rest ih =>
    intro evs acc
    have hb10 : (b == 10) = false := by simp [h10 b (by simp)]
    have ih' := ih (fun x hx => h10 x (by simp [hx]))
    by_cases hb13 : b = 13
    · subst hb13
      simp [serial_collect, ih', List.filter_cons]
    · have hb13' : (b == 13) = false := by simp [hb13]
      simp [serial_collect, hb10, hb13', hb13, ih', List.filter_cons, List.append_assoc]

/-- Delivery of one full incoming line on the serial realization: every
carriage return in the collected bytes is dropped by the read loop, then the
result is trimmed. -/
theorem serial_line_delivery (bs : List Nat)
    (hlt : ∀ b ∈ bs, b < 128) (h10 : ∀ b ∈ bs, b ≠ 10) :
    SerialConnection_read_response (bs.map SerialEv.okByte ++ [SerialEv.okByte 10]) =
      .ok (rustTrim (String.mk ((bs.filter (fun b => b != 13)).map Char.ofNat))) := by
  have hflt : ∀ b ∈ bs.filter (fun b => b != 13), b < 128 :=
    fun b hb => hlt b (List.mem_filter.mp hb).1
  have hdec := utf8Decode_ascii (bs.filter (fun b => b != 13)) hflt
  simp [SerialConnection_read_response, serial_collect_append_filter bs h10, serial_collect,
    hdec]

/-- Delivery of one full incoming line on the socket realization:
`read_line` keeps every byte up to and including the newline, so only the
trailing newline (and trailing or leading whitespace, via the trim) is
removed; interior carriage returns survive. -/
theorem socket_line_delivery (bs : List Nat)
    (hlt : ∀ b ∈ bs, b < 128) (h10 : ∀ b ∈ bs, b ≠ 10) :
    SocketConnection_read_response (bs.map SocketEv.byte ++ [SocketEv.byte 10]) =
      .ok (rustTrim (String.mk (bs.map Char.ofNat))) := by
  have hlt' : ∀ b ∈ bs ++ [10], b < 128 := by
    intro b hb
    rcases List.mem_append.mp hb with h | h
    · exact hlt b h
    · simp at h; subst h; norm_num
  have hdec := utf8Decode_ascii (bs ++ [10]) hlt'
  have h1 : rustTrim (String.mk (bs.map Char.ofNat ++ [Char.ofNat 10])) =
      rustTrim (String.mk (bs.map Char.ofNat)) := by
    have h2 : Char.ofNat 10 = '\n' := rfl
    rw [h2, rustTrim, rustTrim]
    exact congrArg String.mk (trimList_append_newline _)
  simp [SocketConnection_read_response, socket_read_line_append bs h10, socket_read_line,
    hdec, h1]

/-- C8, counterexample to the claim as stated: the read half of the claim
promises that any carriage returns are stripped from every incoming line,
but the socket realization delivers the line `"A\rB\n"` as `"A\rB"` — the
interior carriage return is kept (only the serial realization delivers
`"AB"`). -/
theorem claim_C8_counterexample :
    SocketConnection_read_response ([65, 13, 66, 10].map SocketEv.byte) = .ok "A\rB" ∧
    SocketConnection_read_response ([65, 13, 66, 10].map SocketEv.byte) ≠ .ok "AB" ∧
    SerialConnection_read_response ([65, 13, 66, 10].map SerialEv.okByte) = .ok "AB" := by
  refine ⟨rfl, fun h => ?_, rfl⟩
  rw [show SocketConnection_read_response ([65, 13, 66, 10].map SocketEv.byte) =
      Except.ok "A\rB" from rfl] at h
  injection h with h2
  have h3 : ('A' :: '\r' :: ('B' :: [])) = ('A' :: 'B' :: []) := congrArg String.data h2
  injection h3 with _ h4
  injection h4 with h5 _
  exact absurd h5 (by decide)

/-- C8 (amended): sending a command writes exactly the command's bytes
followed by a single newline (`"OP1 1"` becomes the bytes `"OP1 1\n"`) on
both realizations.  For every incoming line, the serial realization delivers
the line's bytes with every carriage return removed and the result trimmed,
while the socket realization delivers the line's bytes with the trailing
newline stripped and the result trimmed, keeping interior carriage returns;
for a line with at most a trailing carriage return, such as `"1.234A\r\n"`,
both realizations therefore deliver the same string `"1.234A"`. -/
theorem claim_C8 (command : String) (bs : List Nat)
    (hlt : ∀ b ∈ bs, b < 128) (h10 : ∀ b ∈ bs, b ≠ 10) :
    SocketConnection_write_command_bytes command = strBytes command ++ [10] ∧
    SerialConnection_write_command_bytes command = strBytes command ++ [10] ∧
    SocketConnection_write_command_bytes "OP1 1" = [79, 80, 49, 32, 49, 10] ∧
    SerialConnection_write_command_bytes "OP1 1" = [79, 80, 49, 32, 49, 10] ∧
    SerialConnection_read_response (bs.map SerialEv.okByte ++ [SerialEv.okByte 10]) =
      .ok (rustTrim (String.mk ((bs.filter (fun b => b != 13)).map Char.ofNat))) ∧
    SocketConnection_read_response (bs.map SocketEv.byte ++ [SocketEv.byte 10]) =
      .ok (rustTrim (String.mk (bs.map Char.ofNat))) ∧
    SocketConnection_read_response ([49, 46, 50, 51, 52, 65, 13, 10].map SocketEv.byte) =
      .ok "1.234A" ∧
    SerialConnection_read_response ([49, 46, 50, 51, 52, 65, 13, 10].map SerialEv.okByte) =
      .ok "1.234A" := by
  have hNl : strBytes "\n" = [10] := rfl
  refine ⟨?_, ?_, rfl, rfl, serial_line_delivery bs hlt h10, socket_line_delivery bs hlt h10,
    rfl, rfl⟩
  · rw [SocketConnection_write_command_bytes, strBytes_append, hNl]
  · rw [SerialConnection_write_command_bytes, strBytes_append, hNl]

theorem claim_C8_witness :
    (SocketConnection_write_command_bytes "OP1 1" = strBytes "OP1 1" ++ [10] ∧
     SerialConnection_write_command_bytes "OP1 1" = strBytes "OP1 1" ++ [10] ∧
     SocketConnection_write_command_bytes "OP1 1" = [79, 80, 49, 32, 49, 10] ∧
     SerialConnection_write_command_bytes "OP1 1" = [79, 80, 49, 32, 49, 10] ∧
     SerialConnection_read_response
         ([49, 46, 50, 51, 52, 65, 13].map SerialEv.okByte ++ [SerialEv.okByte 10]) =
       .ok (rustTrim (String.mk
         (([49, 46, 50, 51, 52, 65, 13].filter (fun b => b != 13)).map Char.ofNat))) ∧
     SocketConnection_read_response
         ([49, 46, 50, 51, 52, 65, 13].map SocketEv.byte ++ [SocketEv.byte 10]) =
       .ok (rustTrim (String.mk ([49, 46, 50, 51, 52, 65, 13].map Char.ofNat))) ∧
     SocketConnection_read_response ([49, 46, 50, 51, 52, 65, 13, 10].map SocketEv.byte) =
       .ok "1.234A" ∧
     SerialConnection_read_response ([49, 46, 50, 51, 52, 65, 13, 10].map SerialEv.okByte) =
       .ok "1.234A") ∧
    rustTrim (String.mk
      (([49, 46, 50, 51, 52, 65, 13].filter (fun b => b != 13)).map Char.ofNat)) = "1.234A" ∧
    rustTrim (String.mk ([49, 46, 50, 51, 52, 65, 13].map Char.ofNat)) = "1.234A" :=
  ⟨claim_C8 "OP1 1" [49, 46, 50, 51, 52, 65, 13] (by decide) (by decide), rfl, rfl⟩

end Mxpsu
